import Mathlib

/-!
Shallow embedding of `src/backend/src/packages/chaiNNer_standard/image/io/load_imageFAF.py`.

The Python module implements a texture loader for Supreme Commander FAF assets:
it resolves a (root, unit, texture-kind) triple to a `.dds` path — either a
direct file path or an entry inside a `units.scd` zip archive staged into a
temporary directory — and decodes it through an ordered chain of decoders
(`pil-jpeg`, `cv`, `texconv-dds`, `pil`).

External collaborators (OpenCV, PIL, texconv, the zip library, the filesystem)
are modelled as oracle functions supplied as parameters; the control flow of the
Python module itself is translated faithfully.  Temporary filesystem state
(temp directories created by `mkdtemp`, temp PNG files created by texconv) is
modelled by threading an explicit list of extant temporary paths.
-/

/-- A decoded image, as produced by the decoding backends.  `channels` models
the third component of `get_h_w_c`; `pixels` is the row-major pixel buffer,
each pixel a list of channel values. -/
structure Raster where
  channels : Nat
  pixels : List (List Nat)
deriving DecidableEq

/-- A Python exception value, as raised by the code under `src/`. -/
inductive PyErr
  /-- `KeyError` raised by `ZipFile.extract` when the entry is absent. -/
  | keyError (entry : String)
  /-- `RuntimeError("Error reading image image from path ...")` from `_read_cv`. -/
  | runtimeCorrupt (path : String)
  /-- `RuntimeError("The image ... cannot be read by chaiNNer.")` from `load_image_node`. -/
  | unreadable (path : String)
  /-- Any other exception coming out of an external library call. -/
  | other (msg : String)
deriving DecidableEq

/-- Outcome of one decoder call `decoder(path)`: a decoder returns an image,
returns `None` (extension naturally unsupported), or raises an exception. -/
inductive DecodeResult
  /-- The decoder returned a raster. -/
  | ok (img : Raster)
  /-- The decoder returned `None`. -/
  | notApplicable
  /-- The decoder raised exception `e`. -/
  | failed (e : PyErr)
deriving DecidableEq

/-- Python `s.endswith(suf)`: `suf` is a suffix of `s`.  Implemented on the
reversed character lists so that it computes and rewrites by head matching. -/
def py_endswith (s suf : String) : Bool :=
  suf.data.reverse.isPrefixOf s.data.reverse

/-- Python `s.removesuffix(suf)` (line 192): if `s` ends with `suf`, return
`s[:-len(suf)]`, else `s` unchanged. -/
def removesuffix (s suf : String) : String :=
  if py_endswith s suf then String.mk (s.data.take (s.data.length - suf.data.length))
  else s

/-- Scan the reversed characters of a path for its extension: collect the
characters after the last period of the final path segment; hitting a path
separator or the start of the string first means there is no extension. -/
def extTail : List Char → Option (List Char)
  | [] => none
  | c :: rest =>
    if c = '.' then some []
    else if c = '/' ∨ c = '\\' then none
    else (extTail rest).map (fun e => e ++ [c])

/-- Modelled from the spec: `split_file_path` (from `nodes.utils.utils`) is not
under `src/`; per the spec's conventions its third component is the extension of
the final path segment, starting at its last period (empty when there is none).
`get_ext` (source lines 39-40) lowercases that extension. -/
def get_ext (path : String) : String :=
  match extTail path.data.reverse with
  | none => ""
  | some e => String.mk (('.' :: e).map Char.toLower)

/-- The `TEXTURE` enum (source lines 121-124).  Member names `Albedo`,
`SpecTeam`, `normalsTS`; the associated enum values are given by `TEXTURE.val`. -/
inductive TEXTURE
  | Albedo
  | SpecTeam
  | normalsTS
deriving DecidableEq

/-- The string value of each `TEXTURE` member (`TEXTURE.Albedo.value` etc.):
note the value of `normalsTS` is `"normals"`, not `"normalsTS"`. -/
def TEXTURE.val : TEXTURE → String
  | .Albedo => "Albedo"
  | .SpecTeam => "SpecTeam"
  | .normalsTS => "normals"

/-- Python `texture.name`: the member NAME of the enum member (used at source
line 177 to build the filename). -/
def TEXTURE.name : TEXTURE → String
  | .Albedo => "Albedo"
  | .SpecTeam => "SpecTeam"
  | .normalsTS => "normalsTS"

/-- The `TEX_LABEL` dict (source lines 127-131): display label per member. -/
def TEX_LABEL : TEXTURE → String
  | .Albedo => "Albedo"
  | .SpecTeam => "SpecTeam"
  | .normalsTS => "normalsTS"

/-- The external collaborators of the module, as oracle functions:
the extension sets returned by `get_opencv_formats` / `get_pil_formats`,
`cv2.imdecode` on the bytes of a path (possibly raising, possibly `None`),
`cv2.imread` (likewise), `Image.open` followed by `np.array` (possibly
raising), `platform.system()`, and `dds_to_png_texconv` (returning the
produced PNG path, or raising). -/
structure Env where
  opencvFormats : List String
  pilFormats : List String
  imdecode : String → Except PyErr (Option Raster)
  imread : String → Except PyErr (Option Raster)
  pilOpen : String → Except PyErr Raster
  systemName : String
  texconv : String → Except PyErr String

/-- `_read_cv` (source lines 43-67): reject extensions outside the OpenCV
format set; try `imdecode` (exceptions caught and logged); if that produced
nothing, try `imread`, converting an exception or a `None` result into the
"image may be corrupt" `RuntimeError`. -/
def _read_cv (env : Env) (path : String) : DecodeResult :=
  if get_ext path ∉ env.opencvFormats then .notApplicable
  else
    let img : Option Raster :=
      match env.imdecode path with
      | .ok r => r
      | .error _ => none
    match img with
    | some r => .ok r
    | none =>
      match env.imread path with
      | .error _ => .failed (.runtimeCorrupt path)
      | .ok none => .failed (.runtimeCorrupt path)
      | .ok (some r) => .ok r

/-- Modelled `cv2.cvtColor(img, cv2.COLOR_RGB2BGR)` on one pixel: channels 0
and 2 are swapped, any further channels kept.  `cv2.COLOR_RGBA2BGRA` performs
the same swap keeping the alpha channel, so both conversions used by the source
act as this per-pixel swap. -/
def swap02 (p : List Nat) : List Nat :=
  match p with
  | r :: g :: b :: rest => b :: g :: r :: rest
  | q => q

/-- Modelled `cv2.cvtColor · cv2.COLOR_RGB2BGR`: swap channels 0 and 2 of
every pixel. -/
def cvtColor_RGB2BGR (img : Raster) : Raster :=
  ⟨img.channels, img.pixels.map swap02⟩

/-- Modelled `cv2.cvtColor · cv2.COLOR_RGBA2BGRA`: swap channels 0 and 2 of
every pixel, keep the alpha channel. -/
def cvtColor_RGBA2BGRA (img : Raster) : Raster :=
  ⟨img.channels, img.pixels.map swap02⟩

/-- `_read_pil` (source lines 70-82): reject extensions outside the PIL format
set; open the image (exceptions propagate); reorder a 3-channel image RGB→BGR
and a 4-channel image RGBA→BGRA; pass any other channel count through. -/
def _read_pil (env : Env) (path : String) : DecodeResult :=
  if get_ext path ∉ env.pilFormats then .notApplicable
  else
    match env.pilOpen path with
    | .error e => .failed e
    | .ok img =>
      let c := img.channels
      if c = 3 then .ok (cvtColor_RGB2BGR img)
      else if c = 4 then .ok (cvtColor_RGBA2BGRA img)
      else .ok img

/-- `_read_dds` (source lines 85-98), with the set of extant temporary files
threaded explicitly.  The Python `try: return _read_cv(png) finally:
os.remove(png)` is modelled by computing the inner result (normal or
exceptional, both captured by `DecodeResult`) and then removing `png` from the
temp-file set before returning it. -/
def _read_dds (env : Env) (path : String) (tmpFiles : List String) :
    DecodeResult × List String :=
  if get_ext path ≠ ".dds" then (.notApplicable, tmpFiles)
  else if env.systemName ≠ "Windows" then (.notApplicable, tmpFiles)
  else
    match env.texconv path with
    | .error e => (.failed e, tmpFiles)
    | .ok png =>
      let afterConv := png :: tmpFiles
      let r := _read_cv env png
      (r, afterConv.erase png)

/-- The pure result of `_read_dds`: its temp-PNG bookkeeping is internal (the
PNG is deleted before the call returns on every outcome, see
`read_dds_temp_png_cleanup`), so the decoder chain sees only this value. -/
def _read_dds_r (env : Env) (path : String) : DecodeResult :=
  (_read_dds env path []).1

/-- A decoder as stored in `_decoders`: `Callable[[str], ndarray | None]`
together with the raise behaviour. -/
def PureDecoder : Type := String → DecodeResult

/-- `_for_ext` (source lines 101-108): wrap a decoder so that it returns
`None` for any path whose extension is outside the given set. -/
def _for_ext (exts : List String) (decoder : PureDecoder) : PureDecoder :=
  fun path => if get_ext path ∈ exts then decoder path else .notApplicable

/-- `_decoders` (source lines 111-116): the fixed priority-ordered list of
named decoders. -/
def _decoders (env : Env) : List (String × PureDecoder) :=
  [ ("pil-jpeg", _for_ext [".jpg", ".jpeg"] (_read_pil env))
  , ("cv", _read_cv env)
  , ("texconv-dds", _read_dds_r env)
  , ("pil", _read_pil env) ]

/-- The decoder loop of `load_image_node` (source lines 199-209): try each
decoder in order; an exception is caught and recorded in `error`
(overwriting any earlier one); a `None` result moves on to the next decoder;
the first raster breaks the loop.  Also returns the list of decoder names
actually invoked, in order. -/
def runDecoders (ds : List (String × PureDecoder)) (path : String)
    (error : Option PyErr) : Option Raster × Option PyErr × List String :=
  match ds with
  | [] => (none, error, [])
  | (name, d) :: rest =>
    match d path with
    | .ok img => (some img, error, [name])
    | .notApplicable =>
      let r := runDecoders rest path error
      (r.1, r.2.1, name :: r.2.2)
    | .failed e =>
      let r := runDecoders rest path (some e)
      (r.1, r.2.1, name :: r.2.2)

/-- The chain as a whole (decoder loop plus the error epilogue of
`load_image_node`, source lines 199-220 without the cleanup): the first raster
wins; otherwise the recorded error is re-raised when there is one, else the
generic "cannot be read by chaiNNer" error naming the path. -/
def chainOutcome (ds : List (String × PureDecoder)) (path : String) :
    Except PyErr Raster :=
  match runDecoders ds path none with
  | (some img, _, _) => .ok img
  | (none, some e, _) => .error e
  | (none, none, _) => .error (.unreadable path)

/-- The error variable's final value after the loop: the most recent `Failed`
error among the decoders, in chain order, when any decoder failed. -/
def lastError (ds : List (String × PureDecoder)) (path : String) :
    Option PyErr :=
  ds.foldl
    (fun acc nd =>
      match nd.2 path with
      | .failed e => some e
      | _ => acc)
    none

/-- Resolved location of a texture request: either a direct file path or an
entry inside an archive. -/
inductive ResolvedLocation
  | Direct (path : String)
  | Archived (archivePath entryName : String)
deriving DecidableEq

/-- The archive entry name built at source line 187:
`"units/" + unit + "/" + filename + ".dds"`. -/
def archiveEntryName (unit filename : String) : String :=
  "units/" ++ unit ++ "/" ++ filename ++ ".dds"

/-- The staged file path built at source line 188:
`tempdir + "\\units\\" + unit + "\\" + filename + ".dds"`. -/
def stagedPath (tempdir unit filename : String) : String :=
  tempdir ++ "\\units\\" ++ unit ++ "\\" ++ filename ++ ".dds"

/-- The direct-mode working path built at source line 192:
`path.removesuffix("\\") + "\\" + unit + "\\" + filename + ".dds"`. -/
def directWorkingPath (root unit filename : String) : String :=
  removesuffix root "\\" ++ "\\" ++ unit ++ "\\" ++ filename ++ ".dds"

/-- The path-resolution logic of `load_image_node` (source lines 177-192) as a
standalone value: a root ending in `"units.scd"` is an archive container whose
entry is `units/{unit}/{unit}_{texture.name}.dds`; any other root yields the
direct path with one trailing backslash removed first. -/
def resolve (root unit : String) (texture : TEXTURE) : ResolvedLocation :=
  let filename := unit ++ "_" ++ texture.name
  if py_endswith root "units.scd" then
    .Archived root (archiveEntryName unit filename)
  else
    .Direct (directWorkingPath root unit filename)

/-- `load_image_node` (source lines 174-222), with the zip archive modelled as
an oracle `zipEntries` listing the entry names of the archive at a path, the
fresh directory produced by `mkdtemp` passed in as `tempdir`, and the set of
extant temporary directories threaded as `dirs`.  `ZipFile.extract` raises
`KeyError` when the entry is absent; `shutil.rmtree` removes the temp
directory.  Exception propagation out of the Python function is modelled by
returning `.error` together with the temp-directory state at that point. -/
def load_image_node (env : Env) (zipEntries : String → List String)
    (tempdir : String) (_path unit : String) (texture : TEXTURE)
    (target : String) (dirs : List String) :
    Except PyErr (Raster × String × String × String × String) × List String :=
  let textureName := texture.name
  let filename := unit ++ "_" ++ textureName
  if py_endswith _path "units.scd" then
    let dirs1 := tempdir :: dirs
    if archiveEntryName unit filename ∈ zipEntries _path then
      let path := stagedPath tempdir unit filename
      let r := runDecoders (_decoders env) path none
      let dirs2 := dirs1.erase tempdir
      match r.1 with
      | some img => (.ok (img, _path, unit, filename, target), dirs2)
      | none =>
        match r.2.1 with
        | some e => (.error e, dirs2)
        | none => (.error (.unreadable path), dirs2)
    else
      (.error (.keyError (archiveEntryName unit filename)), dirs1)
  else
    let path := directWorkingPath _path unit filename
    let r := runDecoders (_decoders env) path none
    match r.1 with
    | some img => (.ok (img, _path, unit, filename, target), dirs)
    | none =>
      match r.2.1 with
      | some e => (.error e, dirs)
      | none => (.error (.unreadable path), dirs)

/-- A small concrete 3-channel raster used to instantiate the oracles in
concrete evaluations. -/
def sampleRaster : Raster := ⟨3, [[1, 2, 3], [4, 5, 6]]⟩

/-- A concrete environment in which no decoder supports any format: both
format sets are empty and the platform is not Windows. -/
def wEnvEmpty : Env :=
  ⟨[], [], fun _ => .ok none, fun _ => .ok none,
   fun _ => .error (.other "pil"), "Linux", fun p => .ok (p ++ ".png")⟩

/-- A concrete environment in which the OpenCV decoder succeeds on `.dds` and
`.png` paths via `imdecode`, and PIL knows no format. -/
def wEnvCv : Env :=
  ⟨[".dds", ".png"], [], fun _ => .ok (some sampleRaster), fun _ => .ok none,
   fun _ => .error (.other "pil"), "Windows", fun p => .ok (p ++ ".png")⟩

/-- A concrete environment in which PIL succeeds with a fixed 3-channel image
on `.jpg` and `.dds` paths, and OpenCV knows no format. -/
def wEnvPil : Env :=
  ⟨[], [".jpg", ".dds"], fun _ => .ok none, fun _ => .ok none,
   fun _ => .ok sampleRaster, "Linux", fun p => .ok (p ++ ".png")⟩

example : get_ext "a\\b\\c_Albedo.dds" = ".dds" := by decide
example : get_ext "a.DDS" = ".dds" := by decide
example : get_ext "noext" = "" := by decide
example : get_ext "dir.d\\noext" = "" := by decide
example : py_endswith "x\\units.scd" "units.scd" = true := by decide
example : py_endswith "x\\units.scd\\" "units.scd" = false := by decide
example : removesuffix "R\\\\" "\\" = "R\\" := by decide
example : removesuffix "R" "\\" = "R" := by decide

/-! ### General lemmas about the embedding -/

theorem extTail_dds (t : List Char) :
    extTail ('s' :: 'd' :: 'd' :: '.' :: t) = some ['d', 'd', 's'] := rfl

/-- Any path ending in the literal `".dds"` has extension `".dds"`. -/
theorem get_ext_append_dds (x : String) : get_ext (x ++ ".dds") = ".dds" := by
  unfold get_ext
  have h1 : (x ++ ".dds").data.reverse = 's' :: 'd' :: 'd' :: '.' :: x.data.reverse := by
    rw [String.data_append, List.reverse_append]
    rfl
  rw [h1, extTail_dds]
  rfl

/-- Appending one backslash always yields a string ending in a backslash. -/
theorem py_endswith_append_backslash (s : String) :
    py_endswith (s ++ "\\") "\\" = true := by
  unfold py_endswith
  rw [String.data_append, List.reverse_append,
    show ("\\" : String).data.reverse = ['\\'] from rfl, List.singleton_append]
  simp [List.isPrefixOf]

/-- A string ending in a backslash never ends in `"units.scd"`. -/
theorem py_endswith_append_backslash_scd (s : String) :
    py_endswith (s ++ "\\") "units.scd" = false := by
  unfold py_endswith
  rw [String.data_append, List.reverse_append,
    show ("\\" : String).data.reverse = ['\\'] from rfl, List.singleton_append,
    show ("units.scd" : String).data.reverse =
      ['d', 'c', 's', '.', 's', 't', 'i', 'n', 'u'] from rfl]
  simp [List.isPrefixOf]

/-- Removing the suffix it just gained: `removesuffix (s ++ "\\") "\\" = s`. -/
theorem removesuffix_append_backslash (s : String) :
    removesuffix (s ++ "\\") "\\" = s := by
  unfold removesuffix
  rw [py_endswith_append_backslash]
  simp only [if_true]
  have hd : (s ++ "\\").data = s.data ++ ['\\'] := by
    rw [String.data_append]
  rw [hd]
  have hlen : (s.data ++ ['\\']).length - ("\\" : String).data.length = s.data.length := by
    simp
  rw [hlen]
  rw [List.take_left]

/-- `removesuffix` does nothing when the suffix is absent. -/
theorem removesuffix_of_not_endswith (s suf : String)
    (h : py_endswith s suf = false) : removesuffix s suf = s := by
  unfold removesuffix
  rw [h]
  simp

/-- Exhaustion lemma for the decoder loop: when no decoder produces a raster
at `path`, the loop ends with no image and with the error variable holding the
fold of all recorded failures over the initial value. -/
theorem runDecoders_exhaust (path : String)
    (ds : List (String × PureDecoder)) :
    ∀ e0 : Option PyErr,
      (∀ nd ∈ ds, ∀ img, nd.2 path ≠ DecodeResult.ok img) →
      (runDecoders ds path e0).1 = none ∧
      (runDecoders ds path e0).2.1 =
        ds.foldl
          (fun acc nd =>
            match nd.2 path with
            | .failed e => some e
            | _ => acc)
          e0 := by
  induction ds with
  | nil => intro e0 _; exact ⟨rfl, rfl⟩
  | cons nd rest ih =>
    intro e0 h
    obtain ⟨name, d⟩ := nd
    have hhead := h (name, d) (List.mem_cons_self _ _)
    have htail : ∀ m ∈ rest, ∀ img, m.2 path ≠ DecodeResult.ok img :=
      fun m hm => h m (List.mem_cons_of_mem _ hm)
    cases hd : d path with
    | ok img => exact absurd hd (hhead img)
    | notApplicable =>
      have := ih e0 htail
      simp only [runDecoders, hd, List.foldl_cons]
      exact ⟨this.1, this.2⟩
    | failed e =>
      have := ih (some e) htail
      simp only [runDecoders, hd, List.foldl_cons]
      exact ⟨this.1, this.2⟩

/-- First-success lemma for the decoder loop: decoders before the first
success are each invoked and passed over; the successful decoder's raster is
returned and the loop stops there, so no later decoder is invoked. -/
theorem runDecoders_first_success (path : String)
    (pre : List (String × PureDecoder)) :
    ∀ (e0 : Option PyErr) (nd : String × PureDecoder)
      (post : List (String × PureDecoder)) (img : Raster),
      (∀ m ∈ pre, ∀ i, m.2 path ≠ DecodeResult.ok i) →
      nd.2 path = DecodeResult.ok img →
      (runDecoders (pre ++ nd :: post) path e0).1 = some img ∧
      (runDecoders (pre ++ nd :: post) path e0).2.2 =
        pre.map Prod.fst ++ [nd.1] := by
  induction pre with
  | nil =>
    intro e0 nd post img _ hok
    obtain ⟨name, d⟩ := nd
    replace hok : d path = DecodeResult.ok img := hok
    simp [runDecoders, hok]
  | cons m pre' ih =>
    intro e0 nd post img hpre hok
    obtain ⟨name, d⟩ := m
    have hhead := hpre (name, d) (List.mem_cons_self _ _)
    have htail : ∀ m' ∈ pre', ∀ i, m'.2 path ≠ DecodeResult.ok i :=
      fun m' hm => hpre m' (List.mem_cons_of_mem _ hm)
    cases hd : d path with
    | ok i => exact absurd hd (hhead i)
    | notApplicable =>
      have := ih e0 nd post img htail hok
      simp only [List.cons_append, runDecoders, hd, List.map_cons, List.append_eq]
      exact ⟨this.1, by rw [this.2]⟩
    | failed e =>
      have := ih (some e) nd post img htail hok
      simp only [List.cons_append, runDecoders, hd, List.map_cons, List.append_eq]
      exact ⟨this.1, by rw [this.2]⟩

/-- The error fold over a decoder list is exactly `lastError`. -/
theorem lastError_eq_foldl (ds : List (String × PureDecoder)) (path : String) :
    lastError ds path =
      ds.foldl
        (fun acc nd =>
          match nd.2 path with
          | .failed e => some e
          | _ => acc)
        none := rfl

/-! ### Claims -/

/-- C2: on a path where every decoder in the chain returns NotApplicable or
Failed, the chain propagates the most recent Failed error when at least one
decoder failed, otherwise raises the generic unreadable-image error naming the
path; in no case does it return a raster. -/
theorem chain_all_fail_error_propagation (env : Env) (path : String)
    (h : ∀ nd ∈ _decoders env, ∀ img, nd.2 path ≠ DecodeResult.ok img) :
    (∀ e, lastError (_decoders env) path = some e →
      chainOutcome (_decoders env) path = .error e) ∧
    (lastError (_decoders env) path = none →
      chainOutcome (_decoders env) path = .error (.unreadable path)) ∧
    (∀ img, chainOutcome (_decoders env) path ≠ .ok img) := by
  obtain ⟨h1, h2⟩ := runDecoders_exhaust path (_decoders env) none h
  rw [← lastError_eq_foldl] at h2
  have hco : chainOutcome (_decoders env) path =
      match lastError (_decoders env) path with
      | some e => .error e
      | none => .error (.unreadable path) := by
    unfold chainOutcome
    rcases hr : runDecoders (_decoders env) path none with ⟨i, ee, t⟩
    rw [hr] at h1 h2
    have h1' : i = none := h1
    have h2' : ee = lastError (_decoders env) path := h2
    subst h1'
    subst h2'
    cases lastError (_decoders env) path <;> rfl
  cases hl : lastError (_decoders env) path with
  | some e0 =>
    rw [hl] at hco
    have hco' : chainOutcome (_decoders env) path = .error e0 := hco
    refine ⟨?_, ?_, ?_⟩
    · intro e' he'
      cases he'
      exact hco'
    · intro hn
      cases hn
    · intro img hc
      rw [hco'] at hc
      cases hc
  | none =>
    rw [hl] at hco
    have hco' : chainOutcome (_decoders env) path = .error (.unreadable path) := hco
    refine ⟨?_, ?_, ?_⟩
    · intro e' he'
      cases he'
    · intro _
      exact hco'
    · intro img hc
      rw [hco'] at hc
      cases hc

/-- C2 witness: in an environment where no decoder supports any format, a load
path with an unknown extension makes the chain raise the generic unreadable
error. -/
theorem chain_all_fail_error_propagation_witness :
    chainOutcome (_decoders wEnvEmpty) "a.xyz" = .error (.unreadable "a.xyz") := by
  have h : ∀ nd ∈ _decoders wEnvEmpty, ∀ img, nd.2 "a.xyz" ≠ DecodeResult.ok img := by
    intro nd hnd img
    simp only [_decoders, List.mem_cons, List.not_mem_nil, or_false] at hnd
    rcases hnd with rfl | rfl | rfl | rfl <;> intro hc <;>
      exact DecodeResult.noConfusion hc
  exact (chain_all_fail_error_propagation wEnvEmpty "a.xyz" h).2.1 rfl

/-- C3: the chain holds the decoders in the fixed priority order
[pil-jpeg, cv, texconv-dds, pil]; NotApplicable and Failed outcomes make it
continue to the next decoder, and the first decoder producing a raster
terminates the chain: the chain's result is that raster and the invoked
decoders are exactly those up to and including the successful one, so later
decoders are never invoked (in particular, when decoder 1 succeeds the chain
returns decoder 1's result). -/
theorem chain_priority_first_success (env : Env) (path : String)
    (pre : List (String × PureDecoder)) (nd : String × PureDecoder)
    (post : List (String × PureDecoder)) (img : Raster)
    (hsplit : _decoders env = pre ++ nd :: post)
    (hpre : ∀ m ∈ pre, ∀ i, m.2 path ≠ DecodeResult.ok i)
    (hok : nd.2 path = DecodeResult.ok img) :
    (_decoders env).map Prod.fst = ["pil-jpeg", "cv", "texconv-dds", "pil"] ∧
    chainOutcome (_decoders env) path = .ok img ∧
    (runDecoders (_decoders env) path none).2.2 = pre.map Prod.fst ++ [nd.1] := by
  obtain ⟨h1, h2⟩ := runDecoders_first_success path pre none nd post img hpre hok
  refine ⟨rfl, ?_, ?_⟩
  · unfold chainOutcome
    rw [hsplit]
    rcases hr : runDecoders (pre ++ nd :: post) path none with ⟨i, ee, t⟩
    rw [hr] at h1
    have h1' : i = some img := h1
    subst h1'
    rfl
  · rw [hsplit]
    exact h2

/-- C3 witness: with the cv decoder succeeding on a `.png` path, the pil-jpeg
decoder is passed over, the chain returns cv's raster, and texconv-dds and pil
are never invoked. -/
theorem chain_priority_first_success_witness :
    chainOutcome (_decoders wEnvCv) "a.png" = .ok sampleRaster ∧
    (runDecoders (_decoders wEnvCv) "a.png" none).2.2 = ["pil-jpeg", "cv"] := by
  have h := chain_priority_first_success wEnvCv "a.png"
    [("pil-jpeg", _for_ext [".jpg", ".jpeg"] (_read_pil wEnvCv))]
    ("cv", _read_cv wEnvCv)
    [("texconv-dds", _read_dds_r wEnvCv), ("pil", _read_pil wEnvCv)]
    sampleRaster rfl
    (by
      intro m hm i
      simp only [List.mem_cons, List.not_mem_nil, or_false] at hm
      subst hm
      intro hc
      exact DecodeResult.noConfusion hc)
    rfl
  exact ⟨h.2.1, h.2.2⟩

/-- C4: a root matching the fixed `units.scd` filename convention resolves to
the archived location: the archive path is the root unchanged and the entry
name is exactly `units/{unit}/{unit}_{suffix}.dds` with the kind's mapped
suffix. -/
theorem resolve_archive_mode (root unit : String) (kind : TEXTURE)
    (h : py_endswith root "units.scd" = true) :
    resolve root unit kind =
      .Archived root
        ("units/" ++ unit ++ "/" ++ unit ++ "_" ++ TEX_LABEL kind ++ ".dds") := by
  unfold resolve archiveEntryName
  rw [h]
  simp only [if_true]
  have hname : TEXTURE.name kind = TEX_LABEL kind := by cases kind <;> rfl
  rw [hname]
  apply congrArg (ResolvedLocation.Archived root)
  apply String.ext
  simp [String.data_append, List.append_assoc]

/-- C4 witness: the default archive root resolves to the SpecTeam entry for
unit U. -/
theorem resolve_archive_mode_witness :
    resolve "g:\\gamedata\\units.scd" "U" TEXTURE.SpecTeam =
      .Archived "g:\\gamedata\\units.scd" "units/U/U_SpecTeam.dds" :=
  (resolve_archive_mode "g:\\gamedata\\units.scd" "U" TEXTURE.SpecTeam
    (by decide)).trans (by decide)

/-- C5: a non-archive root resolves to the direct path: the root with exactly
one trailing backslash stripped when present, then separator, unit, separator,
`unit_suffix.dds`; and no other normalization happens: a trailing forward
slash is not stripped, and of two trailing backslashes only one is stripped. -/
theorem resolve_direct_mode (root unit : String) (kind : TEXTURE)
    (h : py_endswith root "units.scd" = false) :
    resolve root unit kind =
      .Direct ((if py_endswith root "\\" then
          String.mk (root.data.take (root.data.length - 1)) else root)
        ++ "\\" ++ unit ++ "\\" ++ unit ++ "_" ++ TEX_LABEL kind ++ ".dds") ∧
    resolve "C:/tex/" "U" TEXTURE.Albedo = .Direct "C:/tex/\\U\\U_Albedo.dds" ∧
    resolve "r\\\\" "U" TEXTURE.Albedo = .Direct "r\\\\U\\U_Albedo.dds" := by
  refine ⟨?_, by decide, by decide⟩
  unfold resolve directWorkingPath removesuffix
  rw [h]
  simp only [Bool.false_eq_true, if_false]
  have hname : TEXTURE.name kind = TEX_LABEL kind := by cases kind <;> rfl
  rw [hname]
  apply congrArg ResolvedLocation.Direct
  have hlen : ("\\" : String).data.length = 1 := rfl
  rw [hlen]
  apply String.ext
  simp [String.data_append, List.append_assoc]

/-- C5 witness: a direct root with one trailing backslash. -/
theorem resolve_direct_mode_witness :
    resolve "C:\\tex\\" "UEB0301" TEXTURE.normalsTS =
      .Direct "C:\\tex\\UEB0301\\UEB0301_normalsTS.dds" :=
  ((resolve_direct_mode "C:\\tex\\" "UEB0301" TEXTURE.normalsTS
    (by decide)).1).trans (by decide)

/-- C6 counterexample: resolution is NOT invariant under trailing separators
in the input root: the same direct-mode root with two trailing backslashes
resolves differently from the root with one. -/
theorem resolve_not_trailing_sep_invariant :
    resolve "R\\\\" "U" TEXTURE.Albedo ≠ resolve "R\\" "U" TEXTURE.Albedo ∧
    resolve "R\\\\" "U" TEXTURE.Albedo ≠ .Direct "R\\U\\U_Albedo.dds" := by
  exact ⟨by decide, by decide⟩

/-- C6 (amended): resolution is invariant under AT MOST one trailing
separator: adding a single trailing backslash to a backslash-free direct-mode
root leaves the resolution unchanged; and archive-mode resolution always
targets the same entry name independent of the archive root. -/
theorem resolve_trailing_sep_amended (root unit : String) (kind : TEXTURE)
    (hsep : py_endswith root "\\" = false)
    (hscd : py_endswith root "units.scd" = false) :
    resolve (root ++ "\\") unit kind = resolve root unit kind ∧
    (∀ r1 r2 : String, py_endswith r1 "units.scd" = true →
      py_endswith r2 "units.scd" = true →
      ∃ entry : String, resolve r1 unit kind = .Archived r1 entry ∧
        resolve r2 unit kind = .Archived r2 entry) := by
  constructor
  · unfold resolve directWorkingPath
    rw [py_endswith_append_backslash_scd, hscd]
    simp only [Bool.false_eq_true, if_false]
    rw [removesuffix_append_backslash, removesuffix_of_not_endswith root "\\" hsep]
  · intro r1 r2 h1 h2
    refine ⟨archiveEntryName unit (unit ++ "_" ++ TEXTURE.name kind), ?_, ?_⟩
    · unfold resolve
      rw [h1]
      simp only [if_true]
    · unfold resolve
      rw [h2]
      simp only [if_true]

/-- C6 amended witness: `"R"` and `"R\\"` resolve identically, and two
different archive roots target the same entry. -/
theorem resolve_trailing_sep_amended_witness :
    resolve ("R" ++ "\\") "U" TEXTURE.Albedo = resolve "R" "U" TEXTURE.Albedo ∧
    ∃ entry : String, resolve "a\\units.scd" "U" TEXTURE.Albedo = .Archived "a\\units.scd" entry ∧
      resolve "b\\units.scd" "U" TEXTURE.Albedo = .Archived "b\\units.scd" entry := by
  have h := resolve_trailing_sep_amended "R" "U" TEXTURE.Albedo (by decide) (by decide)
  exact ⟨h.1, h.2 "a\\units.scd" "b\\units.scd" (by decide) (by decide)⟩

/-- C1 counterexample: an archive-mode load call whose requested entry does
not exist in the archive raises the KeyError but does NOT remove the
already-created temporary directory: starting from an empty temp-directory
set, the call returns with the temporary directory still extant. -/
theorem load_tempdir_leak_on_missing_entry :
    load_image_node wEnvEmpty (fun _ => []) "TMP" "a\\units.scd" "U"
        TEXTURE.Albedo "t" [] =
      (.error (.keyError "units/U/U_Albedo.dds"), ["TMP"]) ∧
    "TMP" ∈ (load_image_node wEnvEmpty (fun _ => []) "TMP" "a\\units.scd" "U"
        TEXTURE.Albedo "t" []).2 :=
  ⟨rfl, List.mem_cons_self "TMP" []⟩

/-- C1 (amended): for an archive-mode load call whose entry exists, the
temporary directory is removed before the call returns on every exit path
(successful decode, decode failure, generic unreadable error); direct-mode
calls touch no temporary directory; but when the requested entry does not
exist, the KeyError propagates with the created temporary directory still
extant — partial temp state IS left behind on that path. -/
theorem load_tempdir_cleanup (env : Env) (zipEntries : String → List String)
    (tempdir _path unit : String) (kind : TEXTURE) (target : String)
    (dirs : List String) :
    (py_endswith _path "units.scd" = true →
      archiveEntryName unit (unit ++ "_" ++ TEXTURE.name kind) ∈ zipEntries _path →
      (load_image_node env zipEntries tempdir _path unit kind target dirs).2 = dirs) ∧
    (py_endswith _path "units.scd" = false →
      (load_image_node env zipEntries tempdir _path unit kind target dirs).2 = dirs) ∧
    (py_endswith _path "units.scd" = true →
      archiveEntryName unit (unit ++ "_" ++ TEXTURE.name kind) ∉ zipEntries _path →
      load_image_node env zipEntries tempdir _path unit kind target dirs =
        (.error (.keyError (archiveEntryName unit (unit ++ "_" ++ TEXTURE.name kind))),
          tempdir :: dirs)) := by
  refine ⟨?_, ?_, ?_⟩
  · intro hz he
    unfold load_image_node
    rw [hz]
    simp only [if_true, if_pos he, List.erase_cons_head]
    split <;> first
      | rfl
      | split <;> rfl
  · intro hz
    unfold load_image_node
    rw [hz]
    simp only [Bool.false_eq_true, if_false]
    split <;> first
      | rfl
      | split <;> rfl
  · intro hz he
    unfold load_image_node
    rw [hz]
    simp only [if_true, if_neg he]

/-- C1 amended witness: with the entry present and the cv decoder succeeding,
an archive-mode load starting from an empty temp-directory set ends with an
empty temp-directory set. -/
theorem load_tempdir_cleanup_witness :
    (load_image_node wEnvCv (fun _ => ["units/U/U_Albedo.dds"]) "TMP"
      "a\\units.scd" "U" TEXTURE.Albedo "t" []).2 = [] :=
  (load_tempdir_cleanup wEnvCv (fun _ => ["units/U/U_Albedo.dds"]) "TMP"
    "a\\units.scd" "U" TEXTURE.Albedo "t" []).1 (by decide) (by decide)

/-- C7: every successful load call returns the tuple (raster, original root
path unchanged, unit name unchanged, `unit + "_" + suffix`, target directory
unchanged) — in archive mode too, where the working path was rebound to the
staged file — and the suffix mapped for Albedo, SpecTeam, normalsTS is
"Albedo", "SpecTeam", "normalsTS" respectively. -/
theorem load_success_tuple (env : Env) (zipEntries : String → List String)
    (tempdir _path unit : String) (kind : TEXTURE) (target : String)
    (dirs : List String) (r : Raster × String × String × String × String)
    (dirs2 : List String)
    (h : load_image_node env zipEntries tempdir _path unit kind target dirs =
      (.ok r, dirs2)) :
    r.2.1 = _path ∧ r.2.2.1 = unit ∧
    r.2.2.2.1 = unit ++ "_" ++ TEX_LABEL kind ∧ r.2.2.2.2 = target ∧
    TEX_LABEL TEXTURE.Albedo = "Albedo" ∧
    TEX_LABEL TEXTURE.SpecTeam = "SpecTeam" ∧
    TEX_LABEL TEXTURE.normalsTS = "normalsTS" := by
  have hname : TEXTURE.name kind = TEX_LABEL kind := by cases kind <;> rfl
  unfold load_image_node at h
  split at h
  · dsimp only at h
    split at h
    · split at h
      · simp only [Prod.mk.injEq, Except.ok.injEq] at h
        obtain ⟨hr, _⟩ := h
        subst hr
        exact ⟨rfl, rfl, by rw [← hname], rfl, rfl, rfl, rfl⟩
      · split at h <;> simp at h
    · simp at h
  · dsimp only at h
    split at h
    · simp only [Prod.mk.injEq, Except.ok.injEq] at h
      obtain ⟨hr, _⟩ := h
      subst hr
      exact ⟨rfl, rfl, by rw [← hname], rfl, rfl, rfl, rfl⟩
    · split at h <;> simp at h

/-- C7 witness: a concrete successful direct-mode load returns the original
inputs and the computed filename. -/
theorem load_success_tuple_witness :
    ((sampleRaster, "R", "U", "U_normalsTS", "t") :
        Raster × String × String × String × String).2.2.2.1 =
      "U" ++ "_" ++ TEX_LABEL TEXTURE.normalsTS :=
  (load_success_tuple wEnvCv (fun _ => []) "T" "R" "U" TEXTURE.normalsTS "t" []
    (sampleRaster, "R", "U", "U_normalsTS", "t") [] rfl).2.2.1

/-- C8: for every path whose PIL decode succeeds, the PIL-based decoder
normalizes the result: a 3-channel image is reordered RGB→BGR, a 4-channel
image RGBA→BGRA (both reorderings swap channels 0 and 2 of every pixel), and
any other channel count passes through unchanged. -/
theorem read_pil_channel_normalization (env : Env) (path : String)
    (img : Raster)
    (hfmt : get_ext path ∈ env.pilFormats)
    (hopen : env.pilOpen path = .ok img) :
    _read_pil env path =
      .ok (if img.channels = 3 then cvtColor_RGB2BGR img
        else if img.channels = 4 then cvtColor_RGBA2BGRA img
        else img) ∧
    cvtColor_RGB2BGR img = ⟨img.channels, img.pixels.map swap02⟩ ∧
    cvtColor_RGBA2BGRA img = ⟨img.channels, img.pixels.map swap02⟩ ∧
    (∀ r g b rest, swap02 (r :: g :: b :: rest) = b :: g :: r :: rest) := by
  refine ⟨?_, rfl, rfl, fun r g b rest => rfl⟩
  unfold _read_pil
  rw [if_neg (by simp [hfmt]), hopen]
  by_cases h3 : img.channels = 3
  · simp [h3]
  · by_cases h4 : img.channels = 4 <;> simp [h3, h4]

/-- C8 witness: a concrete 3-channel PIL decode comes back with every pixel
reordered from RGB to BGR. -/
theorem read_pil_channel_normalization_witness :
    _read_pil wEnvPil "a.dds" = .ok ⟨3, [[3, 2, 1], [6, 5, 4]]⟩ :=
  ((read_pil_channel_normalization wEnvPil "a.dds" sampleRaster
    (by decide) rfl).1).trans (by decide)

/-- C9: whenever the container-texture decoder passes its applicability checks
(`.dds` extension, Windows) and the conversion utility yields a temporary PNG,
the decoder's outcome is exactly the general raster decoder's outcome on that
PNG — return and raise alike — and the temporary PNG is deleted before the
result or error leaves the decoder: the temp-file set is returned unchanged. -/
theorem read_dds_temp_png_cleanup (env : Env) (path png : String)
    (tmpFiles : List String)
    (hext : get_ext path = ".dds")
    (hwin : env.systemName = "Windows")
    (hconv : env.texconv path = .ok png) :
    _read_dds env path tmpFiles = (_read_cv env png, tmpFiles) := by
  unfold _read_dds
  rw [if_neg (by simp [hext]), if_neg (by simp [hwin]), hconv]
  simp [List.erase_cons_head]

/-- C9 witness: a concrete `.dds` decode on Windows stages `a.dds.png`,
decodes it with the cv decoder, and restores the temp-file set. -/
theorem read_dds_temp_png_cleanup_witness :
    _read_dds wEnvCv "a.dds" ["x"] = (_read_cv wEnvCv "a.dds.png", ["x"]) :=
  read_dds_temp_png_cleanup wEnvCv "a.dds" "a.dds.png" ["x"]
    (by decide) rfl rfl

/-- C10: both resolutions hand the decoder chain a working path ending in
`.dds` — the direct path and the staged archive path alike — and on any such
path the JPEG-specialized first decoder (applicability set {.jpg, .jpeg})
returns NotApplicable, so the chain always records it as invoked-and-passed
and its raster is never the chain's contribution: the run on the full chain is
the run on the remaining three decoders. -/
theorem working_path_dds_jpeg_inert :
    (∀ root unit filename : String,
      get_ext (directWorkingPath root unit filename) = ".dds") ∧
    (∀ tempdir unit filename : String,
      get_ext (stagedPath tempdir unit filename) = ".dds") ∧
    (∀ env : Env, ∀ path : String, get_ext path = ".dds" →
      _for_ext [".jpg", ".jpeg"] (_read_pil env) path = .notApplicable ∧
      runDecoders (_decoders env) path none =
        ((runDecoders ((_decoders env).drop 1) path none).1,
          (runDecoders ((_decoders env).drop 1) path none).2.1,
          "pil-jpeg" :: (runDecoders ((_decoders env).drop 1) path none).2.2)) := by
  refine ⟨?_, ?_, ?_⟩
  · intro root unit filename
    exact get_ext_append_dds _
  · intro tempdir unit filename
    exact get_ext_append_dds _
  · intro env path h
    have hfe : _for_ext [".jpg", ".jpeg"] (_read_pil env) path = .notApplicable := by
      unfold _for_ext
      rw [h]
      rfl
    refine ⟨hfe, ?_⟩
    show runDecoders (("pil-jpeg", _for_ext [".jpg", ".jpeg"] (_read_pil env)) ::
      ("cv", _read_cv env) :: ("texconv-dds", _read_dds_r env) ::
      ("pil", _read_pil env) :: []) path none = _
    simp only [runDecoders, hfe, _decoders, List.drop]

/-- C10 witness: concrete working paths end in `.dds` and the pil-jpeg decoder
is not applicable there. -/
theorem working_path_dds_jpeg_inert_witness :
    get_ext (directWorkingPath "R" "U" "U_Albedo") = ".dds" ∧
    _for_ext [".jpg", ".jpeg"] (_read_pil wEnvEmpty) "x.dds" =
      .notApplicable :=
  ⟨working_path_dds_jpeg_inert.1 "R" "U" "U_Albedo",
    (working_path_dds_jpeg_inert.2.2 wEnvEmpty "x.dds" (by decide)).1⟩
